import Mathlib

/-!
Shallow embedding of the core pipeline of the Malicious APK Detection
System (server/analyzer/ml_predictor.py, server/analyzer/apk_analyzer.py,
server/app.py), together with theorems checking the natural-language
specification against it.

Conventions of the embedding:
* Python floats are modelled as rationals; Python truthiness of a number
  is being nonzero.
* Python list indexing, which raises IndexError when out of range, is
  modelled in the Except monad with an explicit error value; code that
  catches exceptions is modelled by matching on the Except result.
* Python short-circuit boolean operators over indexed expressions are
  modelled by explicit sequencing, so that an index is only accessed when
  the original program would access it.
-/

namespace APKDetect

/-- A Python exception, as far as this embedding needs to distinguish. -/
inductive PyErr : Type where
  | indexError : PyErr
  | other : String → PyErr
deriving DecidableEq

/-- Decidable equality of Except results, for concrete evaluation. -/
instance {ε α : Type} [DecidableEq ε] [DecidableEq α] : DecidableEq (Except ε α) :=
  fun x y =>
    match x, y with
    | Except.ok a, Except.ok b =>
      if h : a = b then isTrue (by rw [h])
      else isFalse fun hc => h (Except.ok.inj hc)
    | Except.error e, Except.error e' =>
      if h : e = e' then isTrue (by rw [h])
      else isFalse fun hc => h (Except.error.inj hc)
    | Except.ok _, Except.error _ => isFalse fun hc => Except.noConfusion hc
    | Except.error _, Except.ok _ => isFalse fun hc => Except.noConfusion hc

/-- Truthiness of a Python number: nonzero. -/
def truthy (q : ℚ) : Bool := decide (q ≠ 0)

/-- Python list indexing: the value at position i, or IndexError. -/
def pyGet (xs : List ℚ) (i : ℕ) : Except PyErr ℚ :=
  match xs[i]? with
  | some v => Except.ok v
  | none => Except.error PyErr.indexError

/-- Short-circuit evaluation of the Python expression
features[i1] or features[i2] or ... : later indices are only accessed
when all earlier values are falsy. -/
def evalOr (xs : List ℚ) : List ℕ → Except PyErr Bool
  | [] => Except.ok false
  | i :: rest =>
    match pyGet xs i with
    | Except.error e => Except.error e
    | Except.ok v => if truthy v then Except.ok true else evalOr xs rest

/-- Short-circuit evaluation of the Python expression
features[i1] and features[i2] and ... : later indices are only accessed
while all earlier values are truthy. -/
def evalAnd (xs : List ℚ) : List ℕ → Except PyErr Bool
  | [] => Except.ok true
  | i :: rest =>
    match pyGet xs i with
    | Except.error e => Except.error e
    | Except.ok v => if truthy v then evalAnd xs rest else Except.ok false

/-- Truthiness of the single indexed expression features[i]. -/
def truthyAt (xs : List ℚ) (i : ℕ) : Except PyErr Bool :=
  match pyGet xs i with
  | Except.error e => Except.error e
  | Except.ok v => Except.ok (truthy v)

/-- One accumulation step of the rule-based risk score: add the weight
when the condition holds, propagating the first error. -/
def addWeight (acc : Except PyErr ℤ) (cw : Except PyErr Bool × ℤ) : Except PyErr ℤ :=
  match acc with
  | Except.error e => Except.error e
  | Except.ok s =>
    match cw.1 with
    | Except.error e => Except.error e
    | Except.ok b => Except.ok (if b then s + cw.2 else s)

/-- The risk accumulator of MalwarePredictor._predict_rule_based
(ml_predictor.py lines 88-148): the sequence of weight additions, in
source order, with the source's indices and weights. -/
def riskScore (f : List ℚ) : Except PyErr ℤ :=
  [ (evalOr f [1, 2, 3], (15 : ℤ)),
    (evalOr f [4, 5], 8),
    (evalOr f [6, 7], 5),
    (evalOr f [10, 11], 10),
    (evalOr f [14, 15, 19], 20),
    (truthyAt f 20, 18),
    (truthyAt f 21, 10),
    (truthyAt f 44, 12),
    (truthyAt f 46, 8),
    (truthyAt f 47, 7),
    (evalAnd f [1, 10], 15),
    (evalAnd f [0, 4, 6], 10) ].foldl addWeight (Except.ok 0)

/-- Python round(x, 2) with round-half-to-even, on rationals. -/
def round2 (q : ℚ) : ℚ :=
  let x : ℚ := q * 100
  let fl : ℤ := ⌊x⌋
  let r : ℚ := x - fl
  let n : ℤ :=
    if r < 1/2 then fl
    else if r > 1/2 then fl + 1
    else if fl % 2 = 0 then fl else fl + 1
  (n : ℚ) / 100

/-- The condition of the spyware rule of _determine_malware_type:
(features[4] or features[6] or features[8]) and features[0], with
Python short-circuiting. -/
def spyCond (f : List ℚ) : Except PyErr Bool :=
  match evalOr f [4, 6, 8] with
  | Except.error e => Except.error e
  | Except.ok true => truthyAt f 0
  | Except.ok false => Except.ok false

/-- The condition of the adware rule of _determine_malware_type:
features[0] and not any(features[1:10]); the slice never raises. -/
def adwCond (f : List ℚ) : Except PyErr Bool :=
  match truthyAt f 0 with
  | Except.error e => Except.error e
  | Except.ok true => Except.ok (!((f.drop 1).take 9).any truthy)
  | Except.ok false => Except.ok false

/-- MalwarePredictor._determine_malware_type (ml_predictor.py lines
165-195): the ordered first-match-wins family decision list. -/
def determineMalwareType (f : List ℚ) (is_malware : Bool) : Except PyErr String :=
  if is_malware = false then Except.ok "Benign"
  else
    match evalOr f [1, 2] with
    | Except.error e => Except.error e
    | Except.ok true => Except.ok "SMS Trojan / Premium SMS Fraud"
    | Except.ok false =>
      match evalAnd f [16, 20] with
      | Except.error e => Except.error e
      | Except.ok true => Except.ok "Banking Trojan"
      | Except.ok false =>
        match spyCond f with
        | Except.error e => Except.error e
        | Except.ok true => Except.ok "Spyware / Information Stealer"
        | Except.ok false =>
          match evalAnd f [20, 16] with
          | Except.error e => Except.error e
          | Except.ok true => Except.ok "Ransomware"
          | Except.ok false =>
            match adwCond f with
            | Except.error e => Except.error e
            | Except.ok true => Except.ok "Adware"
            | Except.ok false =>
              match evalOr f [44, 47] with
              | Except.error e => Except.error e
              | Except.ok true => Except.ok "Backdoor / Remote Access Trojan"
              | Except.ok false => Except.ok "Generic Malware"

/-- The fields of a prediction result dictionary that the pipeline reads:
is_malware, confidence, malware_type, and the method key (absent, which we
model as none, on the error path of predict). The risk_indicators and
error keys are not modelled: nothing downstream reads them. -/
structure PredResult : Type where
  is_malware : Bool
  confidence : ℚ
  malware_type : String
  method : Option String
deriving DecidableEq

/-- MalwarePredictor._predict_rule_based (ml_predictor.py lines 83-163):
accumulate the risk score, set the malware flag at threshold 30, the
confidence to min(score/100, 0.95) rounded to two decimals, and the
family label; any IndexError escapes to the caller. -/
def predictRuleBased (f : List ℚ) : Except PyErr PredResult :=
  match riskScore f with
  | Except.error e => Except.error e
  | Except.ok rs =>
    let is_malware : Bool := decide (30 ≤ rs)
    let confidence : ℚ := min ((rs : ℚ) / 100) (95 / 100)
    match determineMalwareType f is_malware with
    | Except.error e => Except.error e
    | Except.ok mt =>
      Except.ok
        { is_malware := is_malware
          confidence := round2 confidence
          malware_type := mt
          method := some "rule_based" }

/-- The outcome of running the opaque trained model on a vector: its
binary label and the confidence the surrounding code derives from it
(max predict_proba entry, or the fixed 0.85/0.15 split). Any exception
inside those library calls is the error case. -/
structure ModelOut : Type where
  label : ℤ
  confidence : ℚ
deriving DecidableEq

/-- MalwarePredictor._predict_with_model (ml_predictor.py lines 54-81):
on any exception in the try block, including one raised by
_determine_malware_type, fall back to the rule-based strategy. -/
def predictWithModel (modelRun : Except PyErr ModelOut) (f : List ℚ) :
    Except PyErr PredResult :=
  let attempt : Except PyErr PredResult :=
    match modelRun with
    | Except.error e => Except.error e
    | Except.ok out =>
      match determineMalwareType f (truthy (out.label : ℚ)) with
      | Except.error e => Except.error e
      | Except.ok mt =>
        Except.ok
          { is_malware := decide (out.label ≠ 0)
            confidence := round2 out.confidence
            malware_type := mt
            method := some "ml_model" }
  match attempt with
  | Except.ok r => Except.ok r
  | Except.error _ => predictRuleBased f

/-- The strategy chosen inside the try block of MalwarePredictor.predict:
the model strategy when a model is available, else the rule-based one. -/
def strategyOutcome (modelAvailable : Bool) (modelRun : Except PyErr ModelOut)
    (f : List ℚ) : Except PyErr PredResult :=
  if modelAvailable then predictWithModel modelRun f else predictRuleBased f

/-- The dictionary returned by the outer except handler of
MalwarePredictor.predict (ml_predictor.py lines 47-52). -/
def errorResult : PredResult :=
  { is_malware := false, confidence := 0, malware_type := "Unknown", method := none }

/-- MalwarePredictor.predict (ml_predictor.py lines 36-52): run the chosen
strategy; any exception is caught and turned into errorResult. -/
def predict (modelAvailable : Bool) (modelRun : Except PyErr ModelOut)
    (f : List ℚ) : PredResult :=
  match strategyOutcome modelAvailable modelRun f with
  | Except.ok r => r
  | Except.error _ => errorResult

/-- Whether the character list n starts the character list h. -/
def charsLead (n h : List Char) : Bool :=
  match n, h with
  | [], _ => true
  | _ :: _, [] => false
  | a :: n', b :: h' => a = b && charsLead n' h'

/-- Whether the character list n occurs contiguously within h: the Python
substring test n in h. -/
def charsWithin (n h : List Char) : Bool :=
  match h with
  | [] => charsLead n []
  | _ :: h' => charsLead n h || charsWithin n h'

/-- The Python substring test n in h on strings. -/
def strWithin (n h : String) : Bool := charsWithin n.toList h.toList

/-- ASCII uppercase mapping of one character, as Python str.upper acts on
the ASCII strings this pipeline compares. -/
def charUp (c : Char) : Char :=
  if 97 ≤ c.toNat ∧ c.toNat ≤ 122 then Char.ofNat (c.toNat - 32) else c

/-- ASCII lowercase mapping of one character, as Python str.lower acts on
the ASCII strings this pipeline compares. -/
def charDown (c : Char) : Char :=
  if 65 ≤ c.toNat ∧ c.toNat ≤ 90 then Char.ofNat (c.toNat + 32) else c

/-- Python str.upper on the ASCII strings of this pipeline. -/
def strUpper (s : String) : String := String.mk (s.toList.map charUp)

/-- Python str.lower on the ASCII strings of this pipeline. -/
def strLower (s : String) : String := String.mk (s.toList.map charDown)

/-- The characters after the last dot: Python p.split(".")[-1], on the
character list (the whole list when no dot occurs). -/
def lastDotSegment (cs : List Char) : List Char :=
  cs.foldl (fun acc c => if c = '.' then [] else acc ++ [c]) []

/-- The 40 canonical permission names of
APKAnalyzer._build_feature_vector (apk_analyzer.py lines 265-281), in
source order. -/
def permFeatures : List String :=
  [ "INTERNET", "SEND_SMS", "RECEIVE_SMS", "READ_SMS",
    "READ_CONTACTS", "WRITE_CONTACTS", "ACCESS_FINE_LOCATION",
    "ACCESS_COARSE_LOCATION", "RECORD_AUDIO", "CAMERA",
    "READ_PHONE_STATE", "CALL_PHONE", "READ_CALL_LOG",
    "WRITE_CALL_LOG", "INSTALL_PACKAGES", "DELETE_PACKAGES",
    "READ_EXTERNAL_STORAGE", "WRITE_EXTERNAL_STORAGE",
    "SYSTEM_ALERT_WINDOW", "REQUEST_INSTALL_PACKAGES",
    "BIND_DEVICE_ADMIN", "RECEIVE_BOOT_COMPLETED",
    "WAKE_LOCK", "DISABLE_KEYGUARD", "GET_TASKS",
    "BLUETOOTH", "BLUETOOTH_ADMIN", "NFC",
    "VIBRATE", "ACCESS_WIFI_STATE", "CHANGE_WIFI_STATE",
    "ACCESS_NETWORK_STATE", "CHANGE_NETWORK_STATE",
    "WRITE_SETTINGS", "EXPAND_STATUS_BAR", "FLASHLIGHT",
    "KILL_BACKGROUND_PROCESSES", "REBOOT", "SET_WALLPAPER",
    "USE_CREDENTIALS" ]

/-- The six suspicious-marker substrings of _build_feature_vector
(apk_analyzer.py lines 294-301), in source order. -/
def suspFlagsList : List String :=
  [ "dynamic code loading", "encryption", "native code",
    "reflection", "boot receiver", "sms receiver" ]

/-- The per-permission flag of _build_feature_vector (apk_analyzer.py
lines 283-285): any(perm in str(p).upper() for p in permissions). -/
def hasPerm (permissions : List String) (perm : String) : Bool :=
  permissions.any fun p => strWithin perm (strUpper p)

/-- The per-marker suspicious flag of _build_feature_vector (apk_analyzer.py
lines 303-305): any(flag in str(s).lower() for s in suspicious_features). -/
def hasSusp (suspicious_features : List String) (flag : String) : Bool :=
  suspicious_features.any fun s => strWithin flag (strLower s)

/-- APKAnalyzer._build_feature_vector (apk_analyzer.py lines 256-307):
40 permission flags, then the four component counts each divided by its
cap and clamped at 1.0, then the six suspicious flags. -/
def buildFeatureVector (permissions activities services receivers providers
    suspicious_features : List String) : List ℚ :=
  (permFeatures.map fun perm => if hasPerm permissions perm then (1 : ℚ) else 0)
  ++ [ min ((activities.length : ℚ) / 50) 1,
       min ((services.length : ℚ) / 20) 1,
       min ((receivers.length : ℚ) / 20) 1,
       min ((providers.length : ℚ) / 10) 1 ]
  ++ (suspFlagsList.map fun flag =>
        if hasSusp suspicious_features flag then (1 : ℚ) else 0)

/-- APKAnalyzer._build_minimal_feature_vector (apk_analyzer.py lines
491-504): a 50-zero vector with positions 0, 1, 2 set from the archive
entry names. -/
def buildMinimalFeatureVector (file_list : List String) : List ℚ :=
  let features := List.replicate 50 (0 : ℚ)
  let features :=
    if file_list.any (fun f => strWithin "classes.dex" f) then features.set 0 1
    else features
  let features :=
    if file_list.any (fun f => strWithin ".so" f) then features.set 1 1
    else features
  let features :=
    if file_list.any (fun f => strWithin "assets" f) then features.set 2 1
    else features
  features

/-- The Google certificate patterns of APKAnalyzer._check_play_store_cert
(apk_analyzer.py lines 446-451). -/
def googlePatterns : List String :=
  [ "CN=Android", "CN=Google Inc", "O=Google Inc", "OU=Android" ]

/-- The publisher patterns of APKAnalyzer._check_known_publisher
(apk_analyzer.py lines 470-482). -/
def knownPublishers : List String :=
  [ "CN=Facebook", "CN=Twitter", "CN=Microsoft", "CN=Amazon", "CN=WhatsApp",
    "O=Facebook", "O=Microsoft Corporation", "O=Amazon", "O=Samsung",
    "O=Xiaomi", "O=Huawei" ]

/-- APKAnalyzer._check_play_store_cert (apk_analyzer.py lines 436-463):
case-insensitive substring match of the Google patterns against
issuer + " " + subject. -/
def checkPlayStoreCert (issuer subject : String) : Bool :=
  let certString := strUpper (issuer ++ " " ++ subject)
  googlePatterns.any fun pat => strWithin (strUpper pat) certString

/-- APKAnalyzer._check_known_publisher (apk_analyzer.py lines 465-489). -/
def checkKnownPublisher (issuer subject : String) : Bool :=
  let certString := strUpper (issuer ++ " " ++ subject)
  knownPublishers.any fun pub => strWithin (strUpper pub) certString

/-- A parsed signing certificate, with its validity bounds in days. -/
structure CertParsed : Type where
  issuer : String
  subject : String
  notValidBefore : ℤ
  notValidAfter : ℤ
deriving DecidableEq

/-- What the certificate-handling prelude of verify_source can yield:
no certificate in the package, a parse exception, or a parsed
certificate. -/
inductive CertInput : Type where
  | noCert : CertInput
  | parseError : String → CertInput
  | parsed : CertParsed → CertInput
deriving DecidableEq

/-- The source / verified / trust_score triple of a verify_source
result. -/
structure SourceResult : Type where
  source : String
  verified : Bool
  trust_score : ℚ
deriving DecidableEq

/-- The tier decision of APKAnalyzer.verify_source (apk_analyzer.py lines
366-386): strict if/elif priority order. -/
def determineSource (is_play_store is_known_publisher is_self_signed : Bool)
    (validity_days : ℤ) (is_expired : Bool) : SourceResult :=
  if is_play_store then
    { source := "Google Play Store", verified := true, trust_score := 1 }
  else if is_known_publisher then
    { source := "Known Publisher", verified := true, trust_score := 85/100 }
  else if !is_self_signed && decide (365 ≤ validity_days) && !is_expired then
    { source := "Third-party (Valid Certificate)", verified := true,
      trust_score := 7/10 }
  else if !is_self_signed then
    { source := "Third-party (Certificate Issues)", verified := false,
      trust_score := 2/5 }
  else
    { source := "Unknown / Untrusted", verified := false, trust_score := 1/5 }

/-- APKAnalyzer.verify_source (apk_analyzer.py lines 309-434), reduced to
the source / verified / trust_score outcome. cryptoAvailable models
whether the cryptography import succeeds (its ImportError handler returns
score 0.5); a missing certificate returns score 0.0; a parse exception is
caught by the generic handler, score 0.3; otherwise the parsed
certificate goes through the tier decision, with now the current day. -/
def verifySource (cryptoAvailable : Bool) (input : CertInput) (now : ℤ) :
    SourceResult :=
  if !cryptoAvailable then
    { source := "Unknown (Verification Unavailable)", verified := false,
      trust_score := 1/2 }
  else
    match input with
    | CertInput.noCert =>
      { source := "Unknown", verified := false, trust_score := 0 }
    | CertInput.parseError _ =>
      { source := "Unknown", verified := false, trust_score := 3/10 }
    | CertInput.parsed c =>
      let is_expired : Bool := decide (c.notValidAfter < now)
      let validity_days : ℤ := c.notValidAfter - c.notValidBefore
      let is_self_signed : Bool := c.issuer == c.subject
      let is_play_store := checkPlayStoreCert c.issuer c.subject
      let is_known_publisher := checkKnownPublisher c.issuer c.subject
      determineSource is_play_store is_known_publisher is_self_signed
        validity_days is_expired

/-- Python int(): truncation toward zero. -/
def pyTrunc (q : ℚ) : ℤ := if q < 0 then ⌈q⌉ else ⌊q⌋

/-- The prediction fields read by the risk aggregator. -/
structure MLResult : Type where
  is_malware : Bool
  confidence : ℚ
deriving DecidableEq

/-- The reputation-lookup fields read by the risk aggregator. -/
structure VTResult : Type where
  detected : Bool
  positives : ℤ
  total : ℤ
deriving DecidableEq

/-- app.calculate_risk_score (app.py lines 200-223): the weighted sum,
with the count terms capped, the reputation denominator floored at 1,
and the result truncated and capped at 100. -/
def calculate_risk_score (ml : MLResult) (dangerousCount suspiciousCount : ℕ)
    (vt : VTResult) : ℤ :=
  let score : ℚ := 0
  let score := if ml.is_malware then score + ml.confidence * 40 else score
  let score := score + min ((dangerousCount : ℚ) * 4) 20
  let score := score + min ((suspiciousCount : ℚ) * 5) 20
  let score :=
    if vt.detected then
      score + ((vt.positives : ℚ) / ((max vt.total 1 : ℤ) : ℚ)) * 20
    else score
  min (pyTrunc score) 100

/-- app.determine_verdict (app.py lines 226-235); the ml_result argument
is accepted and ignored, as in the source. -/
def determine_verdict (risk_score : ℤ) (_ml : MLResult) : String :=
  if 70 ≤ risk_score then "Malicious"
  else if 40 ≤ risk_score then "Suspicious"
  else "Safe"

/-! Derived notions used to state the claims. -/

/-- Position i of the vector is set (nonzero). -/
def setFlag (f : List ℚ) (i : ℕ) : Bool := truthy (f.getD i 0)

/-- The rule-based accumulator as the specification words it: the sum of
the fixed weights over the set positions, with the two compound
bonuses. -/
def ruleAccum (f : List ℚ) : ℤ :=
  (if setFlag f 1 || (setFlag f 2 || setFlag f 3) then 15 else 0)
  + (if setFlag f 4 || setFlag f 5 then 8 else 0)
  + (if setFlag f 6 || setFlag f 7 then 5 else 0)
  + (if setFlag f 10 || setFlag f 11 then 10 else 0)
  + (if setFlag f 14 || (setFlag f 15 || setFlag f 19) then 20 else 0)
  + (if setFlag f 20 then 18 else 0)
  + (if setFlag f 21 then 10 else 0)
  + (if setFlag f 44 then 12 else 0)
  + (if setFlag f 46 then 8 else 0)
  + (if setFlag f 47 then 7 else 0)
  + (if setFlag f 1 && setFlag f 10 then 15 else 0)
  + (if setFlag f 0 && (setFlag f 4 && setFlag f 6) then 10 else 0)

/-- The example vector of the specification: indices 1 and 10 set, all
else zero. -/
def exVec : List ℚ := ((List.replicate 50 (0 : ℚ)).set 1 1).set 10 1

/-- What the family decision list computes when every index it touches is
in bounds, written as a pure first-match-wins chain. -/
def familyLabel (f : List ℚ) (im : Bool) : String :=
  if im = false then "Benign"
  else if setFlag f 1 || setFlag f 2 then "SMS Trojan / Premium SMS Fraud"
  else if setFlag f 16 && setFlag f 20 then "Banking Trojan"
  else if (setFlag f 4 || (setFlag f 6 || setFlag f 8)) && setFlag f 0 then
    "Spyware / Information Stealer"
  else if setFlag f 20 && setFlag f 16 then "Ransomware"
  else if setFlag f 0 && !((f.drop 1).take 9).any truthy then "Adware"
  else if setFlag f 44 || setFlag f 47 then "Backdoor / Remote Access Trojan"
  else "Generic Malware"

/-- The per-permission flag as the specification words it: 1 exactly when
some permission string's case-insensitive suffix after the last dot
equals the canonical name. -/
def specPermFlag (permissions : List String) (perm : String) : Bool :=
  permissions.any fun p => (lastDotSegment p.toList).map charUp == perm.toList

/-- The risk aggregator's weighted sum as the claim words it, with the
reputation term written positives / total. -/
def claimSum (ml : MLResult) (dc sc : ℕ) (vt : VTResult) : ℚ :=
  (if ml.is_malware then ml.confidence * 40 else 0)
  + min ((dc : ℚ) * 4) 20
  + min ((sc : ℚ) * 5) 20
  + (if vt.detected then ((vt.positives : ℚ) / (vt.total : ℚ)) * 20 else 0)

/-! Helper lemmas. -/

theorem pyGet_ok (xs : List ℚ) (i : ℕ) (h : i < xs.length) :
    pyGet xs i = Except.ok (xs.getD i 0) := by
  simp [pyGet, List.getD, List.getElem?_eq_getElem h]

theorem evalOr_ok (xs : List ℚ) (idxs : List ℕ)
    (h : ∀ i ∈ idxs, i < xs.length) :
    evalOr xs idxs = Except.ok (idxs.any fun i => setFlag xs i) := by
  induction idxs with
  | nil => rfl
  | cons i rest ih =>
    have hi : i < xs.length := h i (List.mem_cons_self i rest)
    rw [evalOr, pyGet_ok xs i hi, List.any_cons]
    dsimp only
    cases hb : truthy (xs.getD i 0) with
    | true =>
      rw [if_pos rfl]
      simp only [setFlag, hb, Bool.true_or]
    | false =>
      rw [if_neg Bool.false_ne_true,
        ih fun j hj => h j (List.mem_cons_of_mem i hj)]
      simp only [setFlag, hb, Bool.false_or]

theorem evalAnd_ok (xs : List ℚ) (idxs : List ℕ)
    (h : ∀ i ∈ idxs, i < xs.length) :
    evalAnd xs idxs = Except.ok (idxs.all fun i => setFlag xs i) := by
  induction idxs with
  | nil => rfl
  | cons i rest ih =>
    have hi : i < xs.length := h i (List.mem_cons_self i rest)
    rw [evalAnd, pyGet_ok xs i hi, List.all_cons]
    dsimp only
    cases hb : truthy (xs.getD i 0) with
    | true =>
      rw [if_pos rfl,
        ih fun j hj => h j (List.mem_cons_of_mem i hj)]
      simp only [setFlag, hb, Bool.true_and]
    | false =>
      rw [if_neg Bool.false_ne_true]
      simp only [setFlag, hb, Bool.false_and]

theorem truthyAt_ok (xs : List ℚ) (i : ℕ) (h : i < xs.length) :
    truthyAt xs i = Except.ok (setFlag xs i) := by
  simp [truthyAt, pyGet_ok xs i h, setFlag]

theorem addWeight_ok (s : ℤ) (b : Bool) (w : ℤ) :
    addWeight (Except.ok s) (Except.ok b, w) = Except.ok (s + if b then w else 0) := by
  cases b <;> simp [addWeight]

/-- With at least 50 entries, the accumulator of the rule-based strategy
evaluates without error to the specification's weighted sum. -/
theorem riskScore_eval (f : List ℚ) (h : 50 ≤ f.length) :
    riskScore f = Except.ok (ruleAccum f) := by
  have hor : ∀ idxs : List ℕ, (∀ i ∈ idxs, i < 50) →
      evalOr f idxs = Except.ok (idxs.any fun i => setFlag f i) :=
    fun idxs hi => evalOr_ok f idxs fun i hmem => lt_of_lt_of_le (hi i hmem) h
  have hand : ∀ idxs : List ℕ, (∀ i ∈ idxs, i < 50) →
      evalAnd f idxs = Except.ok (idxs.all fun i => setFlag f i) :=
    fun idxs hi => evalAnd_ok f idxs fun i hmem => lt_of_lt_of_le (hi i hmem) h
  have hat : ∀ i : ℕ, i < 50 → truthyAt f i = Except.ok (setFlag f i) :=
    fun i hi => truthyAt_ok f i (lt_of_lt_of_le hi h)
  rw [riskScore,
    hor [1, 2, 3] (by decide), hor [4, 5] (by decide), hor [6, 7] (by decide),
    hor [10, 11] (by decide), hor [14, 15, 19] (by decide),
    hat 20 (by decide), hat 21 (by decide), hat 44 (by decide),
    hat 46 (by decide), hat 47 (by decide),
    hand [1, 10] (by decide), hand [0, 4, 6] (by decide)]
  simp only [List.foldl_cons, List.foldl_nil, addWeight_ok, List.any_cons,
    List.any_nil, List.all_cons, List.all_nil, Bool.or_false, Bool.and_true]
  rw [ruleAccum]
  ring_nf

theorem spyCond_ok (f : List ℚ) (h : 50 ≤ f.length) :
    spyCond f =
      Except.ok ((setFlag f 4 || (setFlag f 6 || setFlag f 8)) && setFlag f 0) := by
  rw [spyCond, evalOr_ok f [4, 6, 8]
    (fun i hmem => lt_of_lt_of_le (by fin_cases hmem <;> decide) h)]
  simp only [List.any_cons, List.any_nil, Bool.or_false]
  cases hc : (setFlag f 4 || (setFlag f 6 || setFlag f 8)) with
  | true =>
    dsimp only
    rw [truthyAt_ok f 0 (lt_of_lt_of_le (by decide) h)]
    simp
  | false => simp

theorem adwCond_ok (f : List ℚ) (h : 50 ≤ f.length) :
    adwCond f = Except.ok (setFlag f 0 && !((f.drop 1).take 9).any truthy) := by
  rw [adwCond, truthyAt_ok f 0 (lt_of_lt_of_le (by decide) h)]
  cases hc : setFlag f 0 with
  | true => simp
  | false => simp

/-- With at least 50 entries, the family decision list evaluates without
error to the pure chain familyLabel. -/
theorem determineMalwareType_eval (f : List ℚ) (h : 50 ≤ f.length) (im : Bool) :
    determineMalwareType f im = Except.ok (familyLabel f im) := by
  have hlt : ∀ i : ℕ, i < 50 → i < f.length := fun i hi => lt_of_lt_of_le hi h
  have hor : ∀ idxs : List ℕ, (∀ i ∈ idxs, i < 50) →
      evalOr f idxs = Except.ok (idxs.any fun i => setFlag f i) :=
    fun idxs hi => evalOr_ok f idxs fun i hmem => hlt i (hi i hmem)
  have hand : ∀ idxs : List ℕ, (∀ i ∈ idxs, i < 50) →
      evalAnd f idxs = Except.ok (idxs.all fun i => setFlag f i) :=
    fun idxs hi => evalAnd_ok f idxs fun i hmem => hlt i (hi i hmem)
  have hift : ∀ (b : Bool) (x y : String), b = true →
      (if b = true then x else y) = x := fun b x y hb => if_pos hb
  have hiff : ∀ (b : Bool) (x y : String), b = false →
      (if b = true then x else y) = y :=
    fun b x y hb => if_neg (by rw [hb]; exact Bool.false_ne_true)
  have htf : ¬(true = false) := by decide
  cases im with
  | false => rfl
  | true =>
    rw [determineMalwareType, if_neg htf, hor [1, 2] (by decide)]
    simp only [List.any_cons, List.any_nil, Bool.or_false]
    cases h1 : (setFlag f 1 || setFlag f 2) with
    | true => rw [familyLabel, if_neg htf, hift _ _ _ h1]
    | false =>
      dsimp only
      rw [hand [16, 20] (by decide)]
      simp only [List.all_cons, List.all_nil, Bool.and_true]
      cases h2 : (setFlag f 16 && setFlag f 20) with
      | true => rw [familyLabel, if_neg htf, hiff _ _ _ h1, hift _ _ _ h2]
      | false =>
        dsimp only
        rw [spyCond_ok f h]
        cases h3 : ((setFlag f 4 || (setFlag f 6 || setFlag f 8)) && setFlag f 0) with
        | true =>
          rw [familyLabel, if_neg htf, hiff _ _ _ h1, hiff _ _ _ h2, hift _ _ _ h3]
        | false =>
          dsimp only
          rw [hand [20, 16] (by decide)]
          simp only [List.all_cons, List.all_nil, Bool.and_true]
          cases h4 : (setFlag f 20 && setFlag f 16) with
          | true =>
            rw [familyLabel, if_neg htf, hiff _ _ _ h1, hiff _ _ _ h2,
              hiff _ _ _ h3, hift _ _ _ h4]
          | false =>
            dsimp only
            rw [adwCond_ok f h]
            cases h5 : (setFlag f 0 && !((f.drop 1).take 9).any truthy) with
            | true =>
              rw [familyLabel, if_neg htf, hiff _ _ _ h1, hiff _ _ _ h2,
                hiff _ _ _ h3, hiff _ _ _ h4, hift _ _ _ h5]
            | false =>
              dsimp only
              rw [hor [44, 47] (by decide)]
              simp only [List.any_cons, List.any_nil, Bool.or_false]
              cases h6 : (setFlag f 44 || setFlag f 47) with
              | true =>
                rw [familyLabel, if_neg htf, hiff _ _ _ h1, hiff _ _ _ h2,
                  hiff _ _ _ h3, hiff _ _ _ h4, hiff _ _ _ h5, hift _ _ _ h6]
              | false =>
                rw [familyLabel, if_neg htf, hiff _ _ _ h1, hiff _ _ _ h2,
                  hiff _ _ _ h3, hiff _ _ _ h4, hiff _ _ _ h5, hiff _ _ _ h6]

theorem round2_div100 (n : ℤ) : round2 ((n : ℚ) / 100) = (n : ℚ) / 100 := by
  have hx : ((n : ℚ) / 100) * 100 = (n : ℚ) := by
    rw [div_mul_cancel₀]
    norm_num
  simp only [round2, hx, Int.floor_intCast, sub_self]
  norm_num

theorem min_div100 (rs : ℤ) :
    min ((rs : ℚ) / 100) (95 / 100) = ((min rs 95 : ℤ) : ℚ) / 100 := by
  rw [Int.cast_min, min_div_div_right (by norm_num : (0 : ℚ) ≤ 100)]
  norm_num

set_option maxHeartbeats 1000000 in
/-- The rule-based strategy, evaluated on a full-length vector. -/
theorem predictRuleBased_eval (f : List ℚ) (h : f.length = 50) :
    predictRuleBased f = Except.ok
      { is_malware := decide (30 ≤ ruleAccum f)
        confidence := min ((ruleAccum f : ℚ) / 100) (95 / 100)
        malware_type := familyLabel f (decide (30 ≤ ruleAccum f))
        method := some "rule_based" } := by
  have hrs := riskScore_eval f h.ge
  have hdm := determineMalwareType_eval f h.ge (decide (30 ≤ ruleAccum f))
  simp only [predictRuleBased, hrs, hdm, min_div100, round2_div100]

/-- Evaluating features[i] and features[j] cannot yield false while
features[j] and features[i] yields true: the two orders agree whenever
the first returns a value, except that one may raise where the other
returns false. -/
theorem evalAnd_pair_swap (f : List ℚ) (i j : ℕ)
    (h : evalAnd f [i, j] = Except.ok false) :
    evalAnd f [j, i] ≠ Except.ok true := by
  intro hc
  cases hgi : pyGet f i with
  | error e =>
    rw [evalAnd, hgi] at h
    exact Except.noConfusion h
  | ok vi =>
    cases hgj : pyGet f j with
    | error ej =>
      rw [evalAnd, hgj] at hc
      exact Except.noConfusion hc
    | ok vj =>
      rw [evalAnd, hgi] at h
      rw [evalAnd, hgj] at hc
      dsimp only at h hc
      cases hvi : truthy vi with
      | true =>
        rw [if_pos hvi, evalAnd, hgj] at h
        dsimp only at h
        cases hvj : truthy vj with
        | true =>
          rw [if_pos hvj, evalAnd] at h
          exact Bool.noConfusion (Except.ok.inj h)
        | false =>
          rw [if_neg (by rw [hvj]; exact Bool.false_ne_true)] at hc
          exact Bool.noConfusion (Except.ok.inj hc)
      | false =>
        cases hvj : truthy vj with
        | true =>
          rw [if_pos hvj, evalAnd, hgi] at hc
          dsimp only at hc
          rw [if_neg (by rw [hvi]; exact Bool.false_ne_true)] at hc
          exact Bool.noConfusion (Except.ok.inj hc)
        | false =>
          rw [if_neg (by rw [hvj]; exact Bool.false_ne_true)] at hc
          exact Bool.noConfusion (Except.ok.inj hc)

theorem charsLead_iff (n h : List Char) :
    charsLead n h = true ↔ ∃ t, n ++ t = h := by
  induction n generalizing h with
  | nil => simp [charsLead]
  | cons a n' ih =>
    cases h with
    | nil =>
      simp only [charsLead, List.append_eq]
      constructor
      · intro hc
        exact Bool.noConfusion hc
      · rintro ⟨t, ht⟩
        exact List.noConfusion ht
    | cons b h' =>
      simp only [charsLead, Bool.and_eq_true, decide_eq_true_eq, ih]
      constructor
      · rintro ⟨rfl, t, rfl⟩
        exact ⟨t, rfl⟩
      · rintro ⟨t, ht⟩
        obtain ⟨rfl, rfl⟩ : a = b ∧ n' ++ t = h' := by
          have h1 := congrArg (fun l => List.headD l a) ht
          have h2 := congrArg List.tail ht
          simp at h1 h2
          exact ⟨h1, h2⟩
        exact ⟨rfl, t, rfl⟩

theorem charsWithin_iff (n h : List Char) :
    charsWithin n h = true ↔ ∃ s t, s ++ n ++ t = h := by
  induction h with
  | nil =>
    simp only [charsWithin, charsLead_iff]
    constructor
    · rintro ⟨t, ht⟩
      exact ⟨[], t, ht⟩
    · rintro ⟨s, t, hst⟩
      rcases List.append_eq_nil.1 hst with ⟨h1, h2⟩
      rcases List.append_eq_nil.1 h1 with ⟨rfl, rfl⟩
      exact ⟨[], rfl⟩
  | cons b h' ih =>
    simp only [charsWithin, Bool.or_eq_true, charsLead_iff, ih]
    constructor
    · rintro (⟨t, ht⟩ | ⟨s, t, hst⟩)
      · exact ⟨[], t, by simpa using ht⟩
      · exact ⟨b :: s, t, by simp [hst]⟩
    · rintro ⟨s, t, hst⟩
      cases s with
      | nil =>
        exact Or.inl ⟨t, by simpa using hst⟩
      | cons b' s' =>
        right
        have h1 := congrArg List.tail hst
        simp at h1
        exact ⟨s', t, by rw [List.append_assoc]; exact h1⟩

/-- The degraded vector is three conditional flags followed by 47
zeros. -/
theorem buildMinimal_eq (file_list : List String) :
    buildMinimalFeatureVector file_list =
      (if file_list.any (fun f => strWithin "classes.dex" f) then (1 : ℚ) else 0)
      :: (if file_list.any (fun f => strWithin ".so" f) then (1 : ℚ) else 0)
      :: (if file_list.any (fun f => strWithin "assets" f) then (1 : ℚ) else 0)
      :: List.replicate 47 0 := by
  rw [buildMinimalFeatureVector]
  split_ifs <;> rfl

/-- C3 (corrected): the feature extractor's permission flag is a
case-insensitive substring test against the whole permission string, not
an equality test on the suffix after the last dot: the flag is 1 exactly
when the canonical name occurs contiguously anywhere inside the
uppercased permission string, and the first 40 vector entries are these
flags in canonical order. -/
theorem claim_C3 (permissions : List String) (name : String) :
    (hasPerm permissions name = true ↔
      ∃ p ∈ permissions, ∃ s t,
        s ++ name.toList ++ t = (strUpper p).toList) ∧
    ∀ activities services receivers providers suspicious_features : List String,
      (buildFeatureVector permissions activities services receivers providers
          suspicious_features).take 40 =
        permFeatures.map fun perm =>
          if hasPerm permissions perm then (1 : ℚ) else 0 := by
  constructor
  · rw [hasPerm, List.any_eq_true]
    constructor
    · rintro ⟨p, hp, hw⟩
      exact ⟨p, hp, (charsWithin_iff _ _).1 hw⟩
    · rintro ⟨p, hp, hw⟩
      exact ⟨p, hp, (charsWithin_iff _ _).2 hw⟩
  · intro a sv r pr su
    rw [buildFeatureVector, List.append_assoc]
    have hlen : (permFeatures.map fun perm =>
        if hasPerm permissions perm then (1 : ℚ) else 0).length = 40 := by
      rw [List.length_map]
      rfl
    rw [← hlen, List.take_left]

/-- C3 counterexample: com.FAKE_SEND_SMS_EXTRA has suffix
FAKE_SEND_SMS_EXTRA after the last dot, which does not equal SEND_SMS,
yet the extractor sets the SEND_SMS flag (vector position 1) to 1. -/
theorem claim_C3_counterexample :
    hasPerm ["com.FAKE_SEND_SMS_EXTRA"] "SEND_SMS" = true ∧
    specPermFlag ["com.FAKE_SEND_SMS_EXTRA"] "SEND_SMS" = false ∧
    permFeatures.getD 1 "" = "SEND_SMS" ∧
    (buildFeatureVector ["com.FAKE_SEND_SMS_EXTRA"] [] [] [] [] []).getD 1 0
      = 1 := by
  refine ⟨by decide, by decide, by decide, by decide⟩

/-- C8 (corrected): the degraded extractor returns a 50-length vector
that is zero except at positions 0, 1, 2 (executable-code artifact,
native-library, bundled-assets flags); these positions coincide with the
INTERNET, SEND_SMS and RECEIVE_SMS permission slots of the full layout,
not with the full vector's suspicious-indicator slots, so positional
compatibility with the full-fidelity vector fails. -/
theorem claim_C8 (file_list : List String) :
    (buildMinimalFeatureVector file_list).length = 50 ∧
    (buildMinimalFeatureVector file_list).drop 3 = List.replicate 47 0 ∧
    (buildMinimalFeatureVector file_list).getD 0 0 =
      (if file_list.any (fun f => strWithin "classes.dex" f) then 1 else 0) ∧
    (buildMinimalFeatureVector file_list).getD 1 0 =
      (if file_list.any (fun f => strWithin ".so" f) then 1 else 0) ∧
    (buildMinimalFeatureVector file_list).getD 2 0 =
      (if file_list.any (fun f => strWithin "assets" f) then 1 else 0) ∧
    permFeatures.getD 0 "" = "INTERNET" ∧
    permFeatures.getD 1 "" = "SEND_SMS" ∧
    permFeatures.getD 2 "" = "RECEIVE_SMS" := by
  rw [buildMinimal_eq]
  refine ⟨?_, rfl, rfl, rfl, rfl, rfl, rfl, rfl⟩
  simp [List.length_replicate]

/-- C8 counterexample: for the archive listing with one native library,
the degraded vector carries its flag at position 1 (the full layout's
SEND_SMS permission slot) and is zero at position 46 (the full layout's
native-code slot, as the full extractor's evaluation shows). -/
theorem claim_C8_counterexample :
    (buildMinimalFeatureVector ["lib/arm/libnative.so"]).getD 1 0 = 1 ∧
    (buildMinimalFeatureVector ["lib/arm/libnative.so"]).getD 46 0 = 0 ∧
    permFeatures.getD 1 "" = "SEND_SMS" ∧
    (buildFeatureVector [] [] [] [] [] ["Native code libraries present"]).getD
      46 0 = 1 ∧
    (buildFeatureVector ["android.permission.SEND_SMS"] [] [] [] [] []).getD
      1 0 = 1 := by
  refine ⟨by decide, by decide, by decide, by decide, by decide⟩

/-- C1: on every 50-element feature vector the rule-based classifier's
accumulator equals the specification's weighted sum over set positions,
the malware flag is accumulator at least 30, the confidence is
min(accumulator/100, 0.95); on the vector with only positions 1 and 10
set the accumulator is 40, the flag is true, the confidence 0.40 and the
family label the SMS-trojan one. -/
theorem claim_C1 :
    (∀ f : List ℚ, f.length = 50 →
      riskScore f = Except.ok (ruleAccum f) ∧
      predictRuleBased f = Except.ok
        { is_malware := decide (30 ≤ ruleAccum f)
          confidence := min ((ruleAccum f : ℚ) / 100) (95 / 100)
          malware_type := familyLabel f (decide (30 ≤ ruleAccum f))
          method := some "rule_based" }) ∧
    ruleAccum exVec = 40 ∧
    predictRuleBased exVec = Except.ok
      { is_malware := true, confidence := 2/5,
        malware_type := "SMS Trojan / Premium SMS Fraud",
        method := some "rule_based" } := by
  refine ⟨fun f h => ⟨riskScore_eval f h.ge, predictRuleBased_eval f h⟩,
    by decide, ?_⟩
  have h := predictRuleBased_eval exVec (by decide)
  rw [show ruleAccum exVec = 40 from by decide] at h
  rw [h]
  have h30 : decide ((30 : ℤ) ≤ 40) = true := by decide
  have hmin : min (((40 : ℤ) : ℚ) / 100) (95 / 100) = 2/5 := by
    rw [min_div100, show min (40 : ℤ) 95 = 40 from by decide]
    norm_num
  rw [h30, hmin, show familyLabel exVec true = "SMS Trojan / Premium SMS Fraud"
    from by decide]

/-- C1 witness: the general part applied to the all-zero vector. -/
theorem claim_C1_witness :
    (List.replicate 50 (0 : ℚ)).length = 50 ∧
    riskScore (List.replicate 50 (0 : ℚ)) =
      Except.ok (ruleAccum (List.replicate 50 (0 : ℚ))) :=
  ⟨by decide, (claim_C1.1 (List.replicate 50 (0 : ℚ)) (by decide)).1⟩

/-- C2: under nonnegative confidence and a reputation signal with
0 at most positives at most total, the aggregated score is the integer
truncation of the claim's weighted sum capped at 100, lies in [0, 100],
and the verdict is a pure function of the score with the fixed 70/40
thresholds. -/
theorem claim_C2 (ml : MLResult) (dc sc : ℕ) (vt : VTResult)
    (hconf : 0 ≤ ml.confidence) (hpos : 0 ≤ vt.positives)
    (hpt : vt.positives ≤ vt.total) :
    calculate_risk_score ml dc sc vt = min (pyTrunc (claimSum ml dc sc vt)) 100 ∧
    0 ≤ calculate_risk_score ml dc sc vt ∧
    calculate_risk_score ml dc sc vt ≤ 100 ∧
    (∀ (s : ℤ) (m m' : MLResult), determine_verdict s m = determine_verdict s m') ∧
    (∀ (s : ℤ) (m : MLResult), determine_verdict s m =
      if 70 ≤ s then "Malicious" else if 40 ≤ s then "Suspicious" else "Safe") := by
  have htot : 0 ≤ vt.total := hpos.trans hpt
  have hvt : ((vt.positives : ℚ) / ((max vt.total 1 : ℤ) : ℚ)) * 20 =
      ((vt.positives : ℚ) / (vt.total : ℚ)) * 20 := by
    rcases htot.lt_or_eq with hlt | heq
    · rw [max_eq_left (by omega : (1 : ℤ) ≤ vt.total)]
    · have hp0 : vt.positives = 0 := le_antisymm (heq ▸ hpt) hpos
      rw [hp0]
      simp
  have hsum : calculate_risk_score ml dc sc vt =
      min (pyTrunc (claimSum ml dc sc vt)) 100 := by
    simp only [calculate_risk_score, claimSum]
    rw [hvt]
    congr 2
    split_ifs <;> ring
  have hS : 0 ≤ claimSum ml dc sc vt := by
    rw [claimSum]
    have t1 : (0 : ℚ) ≤ if ml.is_malware then ml.confidence * 40 else 0 := by
      split
      · exact mul_nonneg hconf (by norm_num)
      · exact le_refl 0
    have t2 : (0 : ℚ) ≤ min ((dc : ℚ) * 4) 20 := le_min (by positivity) (by norm_num)
    have t3 : (0 : ℚ) ≤ min ((sc : ℚ) * 5) 20 := le_min (by positivity) (by norm_num)
    have t4 : (0 : ℚ) ≤
        if vt.detected then ((vt.positives : ℚ) / (vt.total : ℚ)) * 20 else 0 := by
      split
      · exact mul_nonneg
          (div_nonneg (by exact_mod_cast hpos) (by exact_mod_cast htot))
          (by norm_num)
      · exact le_refl 0
    linarith
  refine ⟨hsum, ?_, ?_, fun s m m' => rfl, fun s m => rfl⟩
  · rw [hsum]
    refine le_min ?_ (by norm_num)
    rw [pyTrunc, if_neg (not_lt.2 hS)]
    exact Int.floor_nonneg.2 hS
  · rw [hsum]
    exact min_le_right _ _

/-- C2 witness: the specification's worked reputation example. -/
theorem claim_C2_witness :
    calculate_risk_score ⟨true, 9/10⟩ 5 2 ⟨true, 35, 70⟩ =
      min (pyTrunc (claimSum ⟨true, 9/10⟩ 5 2 ⟨true, 35, 70⟩)) 100 :=
  (claim_C2 ⟨true, 9/10⟩ 5 2 ⟨true, 35, 70⟩ (by norm_num) (by decide)
    (by decide)).1

/-- C4: the full-fidelity extractor always returns exactly 50 values,
each in [0, 1], with the four component-count entries at positions 40-43
equal to the raw count divided by its cap (50, 20, 20, 10) clamped at
1.0; the degraded extractor also always returns 50 values in [0, 1]. -/
theorem claim_C4 (permissions activities services receivers providers
    suspicious_features : List String) :
    (buildFeatureVector permissions activities services receivers providers
        suspicious_features).length = 50 ∧
    (∀ x ∈ buildFeatureVector permissions activities services receivers
        providers suspicious_features, 0 ≤ x ∧ x ≤ 1) ∧
    (buildFeatureVector permissions activities services receivers providers
        suspicious_features).getD 40 0 = min ((activities.length : ℚ) / 50) 1 ∧
    (buildFeatureVector permissions activities services receivers providers
        suspicious_features).getD 41 0 = min ((services.length : ℚ) / 20) 1 ∧
    (buildFeatureVector permissions activities services receivers providers
        suspicious_features).getD 42 0 = min ((receivers.length : ℚ) / 20) 1 ∧
    (buildFeatureVector permissions activities services receivers providers
        suspicious_features).getD 43 0 = min ((providers.length : ℚ) / 10) 1 ∧
    ∀ file_list : List String,
      (buildMinimalFeatureVector file_list).length = 50 ∧
      ∀ x ∈ buildMinimalFeatureVector file_list, 0 ≤ x ∧ x ≤ 1 := by
  have hite : ∀ b : Bool, (0 : ℚ) ≤ (if b then (1 : ℚ) else 0) ∧
      (if b then (1 : ℚ) else 0) ≤ 1 := by
    intro b
    cases b <;> norm_num
  have hcnt : ∀ (k : ℕ) (cap : ℚ), 0 < cap →
      (0 : ℚ) ≤ min ((k : ℚ) / cap) 1 ∧ min ((k : ℚ) / cap) 1 ≤ 1 := by
    intro k cap hcap
    exact ⟨le_min (div_nonneg (by positivity) hcap.le) zero_le_one,
      min_le_right _ _⟩
  refine ⟨rfl, ?_, rfl, rfl, rfl, rfl, ?_⟩
  · intro x hx
    rw [buildFeatureVector] at hx
    rcases List.mem_append.1 hx with hx | hx
    · rcases List.mem_append.1 hx with hx | hx
      · obtain ⟨perm, _, rfl⟩ := List.mem_map.1 hx
        exact hite _
      · simp only [List.mem_cons, List.not_mem_nil, or_false] at hx
        rcases hx with rfl | rfl | rfl | rfl
        · exact hcnt _ 50 (by norm_num)
        · exact hcnt _ 20 (by norm_num)
        · exact hcnt _ 20 (by norm_num)
        · exact hcnt _ 10 (by norm_num)
    · obtain ⟨flag, _, rfl⟩ := List.mem_map.1 hx
      exact hite _
  · intro file_list
    rw [buildMinimal_eq]
    constructor
    · simp [List.length_replicate]
    · intro x hx
      simp only [List.mem_cons] at hx
      rcases hx with rfl | rfl | rfl | hx
      · exact hite _
      · exact hite _
      · exact hite _
      · rw [List.eq_of_mem_replicate hx]
        norm_num

/-- C4 witness: applied to empty metadata, with the bound instantiated at
the first element. -/
theorem claim_C4_witness :
    (buildFeatureVector [] [] [] [] [] []).length = 50 ∧
    ((0 : ℚ) ≤ (0 : ℚ) ∧ (0 : ℚ) ≤ 1) ∧
    (buildMinimalFeatureVector []).length = 50 :=
  ⟨(claim_C4 [] [] [] [] [] []).1,
    (claim_C4 [] [] [] [] [] []).2.1 0 (by decide),
    ((claim_C4 [] [] [] [] [] []).2.2.2.2.2.2 []).1⟩

/-- C5: a certificate matching a known-distribution-channel pattern is
assigned that tier (score 1.0, verified) even when it also satisfies the
third-party-valid conditions: not self-signed, validity at least 365
days, not expired. -/
theorem claim_C5 (c : CertParsed) (now : ℤ)
    (hpat : checkPlayStoreCert c.issuer c.subject = true)
    (_hss : (c.issuer == c.subject) = false)
    (_hval : 365 ≤ c.notValidAfter - c.notValidBefore)
    (_hexp : ¬(c.notValidAfter < now)) :
    verifySource true (CertInput.parsed c) now =
      { source := "Google Play Store", verified := true, trust_score := 1 } := by
  rw [verifySource, if_neg (by decide)]
  dsimp only
  rw [determineSource, if_pos hpat]

/-- C5 witness: a certificate matching the Google pattern and the
third-party-valid conditions. -/
theorem claim_C5_witness :
    verifySource true (CertInput.parsed ⟨"CN=Google Inc", "O=Acme", 0, 400⟩)
        100 =
      { source := "Google Play Store", verified := true, trust_score := 1 } :=
  claim_C5 ⟨"CN=Google Inc", "O=Acme", 0, 400⟩ 100 (by decide) (by decide)
    (by decide) (by decide)

/-- C6 (corrected): neither certificate absence nor a parse failure
raises, and both yield the Unknown tier unverified; but the no-certificate
outcome carries trust score 0.0, below the claimed [0.2, 0.5] band, while
a parse failure yields 0.3 and an unavailable verification library 0.5,
which are inside it. -/
theorem claim_C6 (now : ℤ) (msg : String) :
    verifySource true CertInput.noCert now =
      { source := "Unknown", verified := false, trust_score := 0 } ∧
    verifySource true (CertInput.parseError msg) now =
      { source := "Unknown", verified := false, trust_score := 3/10 } ∧
    verifySource false CertInput.noCert now =
      { source := "Unknown (Verification Unavailable)", verified := false,
        trust_score := 1/2 } ∧
    ((1/5 : ℚ) ≤ (verifySource true (CertInput.parseError msg) now).trust_score ∧
      (verifySource true (CertInput.parseError msg) now).trust_score ≤ 1/2) := by
  refine ⟨rfl, rfl, rfl, ?_, ?_⟩ <;> norm_num [verifySource]

/-- C6 counterexample: with no certificate the verifier returns trust
score 0.0, which is outside the interval [0.2, 0.5] the claim states. -/
theorem claim_C6_counterexample :
    (verifySource true CertInput.noCert 0).source = "Unknown" ∧
    (verifySource true CertInput.noCert 0).verified = false ∧
    (verifySource true CertInput.noCert 0).trust_score = 0 ∧
    ¬((1/5 : ℚ) ≤ (verifySource true CertInput.noCert 0).trust_score) := by
  refine ⟨rfl, rfl, rfl, ?_⟩
  norm_num [verifySource]

/-- C7: when the model strategy raises (either the opaque model call
itself or the family labelling inside its try block), the classifier
returns exactly the rule-based strategy's outcome for the same call, and
a model-error call of predict returns the same result as a rule-based
call. -/
theorem claim_C7 (e : PyErr) (f : List ℚ) (mr : Except PyErr ModelOut)
    (out : ModelOut) (e' : PyErr)
    (hdm : determineMalwareType f (truthy (out.label : ℚ)) = Except.error e') :
    predictWithModel (Except.error e) f = predictRuleBased f ∧
    predict true (Except.error e) f = predict false mr f ∧
    predictWithModel (Except.ok out) f = predictRuleBased f := by
  refine ⟨rfl, rfl, ?_⟩
  simp only [predictWithModel, hdm]

/-- C7 witness: a crashing model, and a model outcome whose family
labelling raises on the empty vector. -/
theorem claim_C7_witness :
    determineMalwareType [] (truthy (((⟨1, 17/20⟩ : ModelOut).label : ℤ) : ℚ)) =
      Except.error PyErr.indexError ∧
    predictWithModel (Except.error (PyErr.other "model crash")) [] =
      predictRuleBased [] ∧
    predict true (Except.error (PyErr.other "model crash")) [] =
      predict false (Except.ok ⟨0, 0⟩) [] ∧
    predictWithModel (Except.ok ⟨1, 17/20⟩) [] = predictRuleBased [] :=
  ⟨by decide,
    claim_C7 (PyErr.other "model crash") [] (Except.ok ⟨0, 0⟩) ⟨1, 17/20⟩
      PyErr.indexError (by decide)⟩

/-- C9: the family decision list never returns the Ransomware label: its
condition, positions 20 and 16 both set, is already matched by the
earlier Banking Trojan rule on positions 16 and 20. -/
theorem claim_C9 (f : List ℚ) (im : Bool) :
    determineMalwareType f im ≠ Except.ok "Ransomware" := by
  intro hc
  rw [determineMalwareType] at hc
  by_cases him : im = false
  · rw [if_pos him] at hc
    exact absurd (Except.ok.inj hc) (by decide)
  · rw [if_neg him] at hc
    cases h1 : evalOr f [1, 2] with
    | error e =>
      rw [h1] at hc
      exact Except.noConfusion hc
    | ok b1 =>
      rw [h1] at hc
      cases b1 with
      | true => exact absurd (Except.ok.inj hc) (by decide)
      | false =>
        cases h2 : evalAnd f [16, 20] with
        | error e =>
          rw [h2] at hc
          exact Except.noConfusion hc
        | ok b2 =>
          rw [h2] at hc
          cases b2 with
          | true => exact absurd (Except.ok.inj hc) (by decide)
          | false =>
            cases h3 : spyCond f with
            | error e =>
              rw [h3] at hc
              exact Except.noConfusion hc
            | ok b3 =>
              rw [h3] at hc
              cases b3 with
              | true => exact absurd (Except.ok.inj hc) (by decide)
              | false =>
                cases h4 : evalAnd f [20, 16] with
                | error e =>
                  rw [h4] at hc
                  exact Except.noConfusion hc
                | ok b4 =>
                  cases b4 with
                  | true => exact evalAnd_pair_swap f 16 20 h2 h4
                  | false =>
                    rw [h4] at hc
                    cases h5 : adwCond f with
                    | error e =>
                      rw [h5] at hc
                      exact Except.noConfusion hc
                    | ok b5 =>
                      rw [h5] at hc
                      cases b5 with
                      | true => exact absurd (Except.ok.inj hc) (by decide)
                      | false =>
                        cases h6 : evalOr f [44, 47] with
                        | error e =>
                          rw [h6] at hc
                          exact Except.noConfusion hc
                        | ok b6 =>
                          rw [h6] at hc
                          cases b6 with
                          | true => exact absurd (Except.ok.inj hc) (by decide)
                          | false => exact absurd (Except.ok.inj hc) (by decide)

/-- C10: the public predict never propagates an exception: whenever the
chosen strategy raises, the call returns the handler's dictionary, with
malware flag false, confidence 0.0 and the out-of-taxonomy label
Unknown. -/
theorem claim_C10 (ma : Bool) (mr : Except PyErr ModelOut) (f : List ℚ)
    (e : PyErr) (h : strategyOutcome ma mr f = Except.error e) :
    predict ma mr f = errorResult ∧
    errorResult.is_malware = false ∧
    errorResult.confidence = 0 ∧
    errorResult.malware_type = "Unknown" := by
  refine ⟨?_, rfl, rfl, rfl⟩
  rw [predict, h]

/-- C10 witness: the empty feature list makes the rule-based strategy
raise IndexError, and predict returns the handler's result. -/
theorem claim_C10_witness :
    strategyOutcome false (Except.ok ⟨0, 0⟩) [] =
      Except.error PyErr.indexError ∧
    predict false (Except.ok ⟨0, 0⟩) [] = errorResult :=
  ⟨by decide,
    (claim_C10 false (Except.ok ⟨0, 0⟩) [] PyErr.indexError (by decide)).1⟩

end APKDetect
